import Mathlib

/-!
# Verification of the `fach` dogfight simulator core

Shallow embedding of the combat core of the repository: the `JetFighter`
data model and its operations (`src/src/scripts/jets.py`, `src/src/jets.py`),
the probability / exchange engine (`src/src/utils.py`,
`src/src/scripts/utils.py`) and the driving simulation loop
(`src/src/scripts/utils.py::dogfight`, `src/src/main.py::main`).

Python floats are modelled by `ℚ`; the only transcendental operation the
core performs is `math.tan`, applied once to the (constant) cannon spread
angle, so the tangent function is taken as an explicit parameter
`tan : ℚ → ℚ` of the definitions that use it.  Every property proved below
holds for an arbitrary such parameter.  Python's mutation of the two
fighter objects is modelled by explicit state passing: each mutating
operation returns the updated fighter together with the value the Python
method returns.
-/

/-- The `JetFighter` state (`src/src/scripts/jets.py`, `src/src/jets.py`):
`name`, mutable `health` and `cannon_ammo`, and the static parameters
`fire_rate`, `wingspan`, `damage_per_round`, `cannon_spread_rads`. -/
structure JetFighter where
  name : String
  health : ℚ
  cannon_ammo : ℚ
  fire_rate : ℚ
  wingspan : ℚ
  damage_per_round : ℚ
  cannon_spread_rads : ℚ
  deriving Repr, DecidableEq

/-- `shoot` as implemented identically by `F16`, `F18` and `F22` in
`src/src/scripts/jets.py`: subtract `duration * fire_rate` rounds from
`cannon_ammo`, clamp at 0, return the remaining ammunition.  Returns
(updated fighter, returned value). -/
def JetFighter.shoot (self : JetFighter) (duration : ℚ) : JetFighter × ℚ :=
  let n_rounds := duration * self.fire_rate
  let cannon_ammo := self.cannon_ammo - n_rounds
  let cannon_ammo := if cannon_ammo < 0 then 0 else cannon_ammo
  ({ self with cannon_ammo := cannon_ammo }, cannon_ammo)

/-- `shoot` as implemented by `F16` and `F18` in `src/src/jets.py`: the
same subtraction but with no clamp at 0, so the ammunition count can
become negative. -/
def JetFighter.shoot_unclamped (self : JetFighter) (duration : ℚ) : JetFighter × ℚ :=
  let n_rounds := duration * self.fire_rate
  let cannon_ammo := self.cannon_ammo - n_rounds
  ({ self with cannon_ammo := cannon_ammo }, cannon_ammo)

/-- `deduct_health` (identical in every jet class of both `jets.py`
variants): subtract the damage from `health`, clamp at 0, return the
remaining health.  Returns (updated fighter, returned value). -/
def JetFighter.deduct_health (self : JetFighter) (damage : ℚ) : JetFighter × ℚ :=
  let health := self.health - damage
  let health := if health < 0 then 0 else health
  ({ self with health := health }, health)

/-- `add_health` (identical in every jet class): add the points, return
the new health. -/
def JetFighter.add_health (self : JetFighter) (health_points : ℚ) : JetFighter × ℚ :=
  let health := self.health + health_points
  ({ self with health := health }, health)

/-- `obtain_health` (identical in every jet class). -/
def JetFighter.obtain_health (self : JetFighter) : ℚ :=
  self.health

/-- `calculate_cross_sectional_area` (identical in every jet class of both
variants): `(wingspan / 2) ** 2 * 3.141`.  Note the source uses the
literal `3.141`, not `math.pi`. -/
def JetFighter.calculate_cross_sectional_area (self : JetFighter) : ℚ :=
  (self.wingspan / 2) ^ 2 * (3141 / 1000)

/-- `calculate_damage` (identical in every jet class of both variants):
`duration * fire_rate * damage_per_round`. -/
def JetFighter.calculate_damage (self : JetFighter) (duration : ℚ) : ℚ :=
  duration * self.fire_rate * self.damage_per_round

/-- `math.radians`, used only to build the constant `cannon_spread_rads`
parameters.  The real conversion factor is `π / 180`; since the resulting
angle is only ever consumed by the abstract tangent parameter and never
inspected otherwise, `π` is modelled here by the code's own circle
constant `3.141`. -/
def radians (x : ℚ) : ℚ :=
  x * (3141 / 1000) / 180

/-- The `F16` of `src/src/scripts/jets.py` (ammo 3000, spread 3°). -/
def F16 : JetFighter :=
  { name := "F16", health := 100, cannon_ammo := 3000, fire_rate := 80,
    wingspan := 45, damage_per_round := 5 / 100, cannon_spread_rads := radians 3 }

/-- The `F18` of `src/src/scripts/jets.py` (ammo 4000, spread 6°). -/
def F18 : JetFighter :=
  { name := "F18", health := 100, cannon_ammo := 4000, fire_rate := 50,
    wingspan := 50, damage_per_round := 30 / 100, cannon_spread_rads := radians 6 }

/-- The `F22` of `src/src/scripts/jets.py` (ammo 2000, spread 2°). -/
def F22 : JetFighter :=
  { name := "F22", health := 100, cannon_ammo := 2000, fire_rate := 60,
    wingspan := 60, damage_per_round := 80 / 100, cannon_spread_rads := radians 2 }

/-- The `F16` of `src/src/jets.py` (ammo 100000000, spread 4°), whose
`shoot` is the unclamped variant. -/
def F16_src : JetFighter :=
  { name := "F16", health := 100, cannon_ammo := 100000000, fire_rate := 80,
    wingspan := 45, damage_per_round := 5 / 100, cannon_spread_rads := radians 4 }

/-- `_calculate_cannon_spread_area` (`src/src/utils.py` line 7,
`src/src/scripts/utils.py` line 9): spread radius
`tan(cannon_spread_rads) * d_12`, area `radius ** 2 * 3.141`. -/
def calculate_cannon_spread_area (tan : ℚ → ℚ) (d_12 : ℚ) (jet : JetFighter) : ℚ :=
  let spread_radius := tan jet.cannon_spread_rads * d_12
  let jet_cannon_spread_area := spread_radius ^ 2 * (3141 / 1000)
  jet_cannon_spread_area

/-- `p_by_distance` (`src/src/utils.py` line 34, `src/src/scripts/utils.py`
line 36): for each side, probability 1.0 when the firer's spread area is
`≤` the target's cross-sectional area, otherwise the ratio of target area
to spread area. -/
def p_by_distance (tan : ℚ → ℚ) (fighter1 fighter2 : JetFighter) (d_12 : ℚ) : ℚ × ℚ :=
  let fighter1_cannon_spread_area := calculate_cannon_spread_area tan d_12 fighter1
  let fighter2_cannon_spread_area := calculate_cannon_spread_area tan d_12 fighter2
  let fighter1_cross_sectional_area := fighter1.calculate_cross_sectional_area
  let fighter2_cross_sectional_area := fighter2.calculate_cross_sectional_area
  let p_1 :=
    if fighter1_cannon_spread_area ≤ fighter2_cross_sectional_area then 1
    else fighter2_cross_sectional_area / fighter1_cannon_spread_area
  let p_2 :=
    if fighter2_cannon_spread_area ≤ fighter1_cross_sectional_area then 1
    else fighter1_cross_sectional_area / fighter2_cannon_spread_area
  (p_1, p_2)

/-- The spec's hit-probability formula (§4.2 of the design document),
written from its words: spread radius `tan(F.cannonSpreadRadians) × d`,
spread area = radius squared times the circle constant, target area =
T's cross-sectional area; probability exactly 1.0 when
`A_spread ≤ A_target`, else `A_target / A_spread`. -/
def specHitProbability (tan : ℚ → ℚ) (F T : JetFighter) (d : ℚ) : ℚ :=
  let r := tan F.cannon_spread_rads * d
  let A_spread := r ^ 2 * (3141 / 1000)
  let A_target := T.calculate_cross_sectional_area
  if A_spread ≤ A_target then 1 else A_target / A_spread

/-- `hit_or_miss` (`src/src/utils.py` line 78): each side hits iff its
probability is `≥` its uniform draw.  The two draws, produced in the
source by `random.uniform(0, 1)`, are explicit parameters here. -/
def hit_or_miss (p_1 p_2 f1_rand f2_rand : ℚ) : Bool × Bool :=
  let f1_hit := if p_1 ≥ f1_rand then true else false
  let f2_hit := if p_2 ≥ f2_rand then true else false
  (f1_hit, f2_hit)

/-- The dictionary returned by `exchange`: for each side, the ammunition
left, the health after the exchange, whether that side hit the opponent,
and the damage that side received from the opponent. -/
structure ExchangeResult where
  fighter1_ammo_left : ℚ
  fighter1_health_post_hit : ℚ
  fighter1_hit : Bool
  fighter1_damage_received : ℚ
  fighter2_ammo_left : ℚ
  fighter2_health_post_hit : ℚ
  fighter2_hit : Bool
  fighter2_damage_received : ℚ
  deriving Repr, DecidableEq

/-- `exchange` (`src/src/utils.py` line 116, `src/src/scripts/utils.py`
line 118), with the two uniform draws of `hit_or_miss` passed explicitly:
compute the two probabilities, sample hit/miss, have both fighters shoot
(ammo deduction), then apply fighter1's damage to fighter2 when fighter1
hit (else damage 0, health read unchanged), then symmetrically fighter2's
damage to fighter1, and return the result record.  Returns
(fighter1 after, fighter2 after, record). -/
def exchange (tan : ℚ → ℚ) (fighter1 fighter2 : JetFighter)
    (distance duration r1 r2 : ℚ) : JetFighter × JetFighter × ExchangeResult :=
  let p := p_by_distance tan fighter1 fighter2 distance
  let hits := hit_or_miss p.1 p.2 r1 r2
  let f1_hit_bool := hits.1
  let f2_hit_bool := hits.2
  let s1 := fighter1.shoot duration
  let fighter1a := s1.1
  let f1_ammo_left := s1.2
  let s2 := fighter2.shoot duration
  let fighter2a := s2.1
  let f2_ammo_left := s2.2
  let step1 : JetFighter × ℚ × ℚ :=
    if f1_hit_bool then
      let f1_damage_inflicted_on_f2 := fighter1a.calculate_damage duration
      let d := fighter2a.deduct_health f1_damage_inflicted_on_f2
      (d.1, f1_damage_inflicted_on_f2, d.2)
    else
      (fighter2a, 0, fighter2a.health)
  let fighter2b := step1.1
  let f1_damage_inflicted_on_f2 := step1.2.1
  let f2_health_post_hit := step1.2.2
  let step2 : JetFighter × ℚ × ℚ :=
    if f2_hit_bool then
      let f2_damage_inflicted_on_f1 := fighter2b.calculate_damage duration
      let d := fighter1a.deduct_health f2_damage_inflicted_on_f1
      (d.1, f2_damage_inflicted_on_f1, d.2)
    else
      (fighter1a, 0, fighter1a.health)
  let fighter1b := step2.1
  let f2_damage_inflicted_on_f1 := step2.2.1
  let f1_health_post_hit := step2.2.2
  (fighter1b, fighter2b,
    { fighter1_ammo_left := f1_ammo_left
      fighter1_health_post_hit := f1_health_post_hit
      fighter1_hit := f1_hit_bool
      fighter1_damage_received := f2_damage_inflicted_on_f1
      fighter2_ammo_left := f2_ammo_left
      fighter2_health_post_hit := f2_health_post_hit
      fighter2_hit := f2_hit_bool
      fighter2_damage_received := f1_damage_inflicted_on_f2 })

/-- How a run of the simulation loop ends (`src/src/scripts/utils.py`
`dogfight`, `src/src/main.py` `main`): one side destroyed, one side out of
ammunition, or the distance range exhausted with no terminal condition. -/
inductive Outcome where
  | f1Destroyed
  | f2Destroyed
  | f1NoAmmo
  | f2NoAmmo
  | distancesExhausted
  deriving Repr, DecidableEq

/-- The four terminal checks performed after each exchange, in source
order (`src/src/scripts/utils.py` lines 241-262, `src/src/main.py` lines
100-121): fighter1 health `≤ 0`, then fighter2 health `≤ 0`, then
fighter1 ammo `== 0`, then fighter2 ammo `== 0`; the first match wins. -/
def terminal_check (res : ExchangeResult) : Option Outcome :=
  if res.fighter1_health_post_hit ≤ 0 then some Outcome.f1Destroyed
  else if res.fighter2_health_post_hit ≤ 0 then some Outcome.f2Destroyed
  else if res.fighter1_ammo_left = 0 then some Outcome.f1NoAmmo
  else if res.fighter2_ammo_left = 0 then some Outcome.f2NoAmmo
  else none

/-- The body of the simulation loop (`src/src/scripts/utils.py` lines
207-286, `src/src/main.py` lines 65-121), recursing over the list of
distances the `range` produces.  `draws k` supplies round `k`'s random
values: the engagement duration (`random.uniform(0, max_duration)`) and
the two uniform hit draws consumed inside `exchange`.  After each
exchange the four terminal conditions are checked in source order; the
first that holds breaks the loop.  Returns the two final fighters, the
outcome, and the number of exchanges performed.  Logging and the pacing
`sleep` have no effect on the combat state and are omitted. -/
def dogfightRun (tan : ℚ → ℚ) (draws : ℕ → ℚ × ℚ × ℚ) :
    List ℤ → ℕ → JetFighter → JetFighter → JetFighter × JetFighter × Outcome × ℕ
  | [], _, fighter1, fighter2 => (fighter1, fighter2, Outcome.distancesExhausted, 0)
  | distance :: rest, k, fighter1, fighter2 =>
    let duration := (draws k).1
    let r1 := (draws k).2.1
    let r2 := (draws k).2.2
    let E := exchange tan fighter1 fighter2 (distance : ℚ) duration r1 r2
    let g1 := E.1
    let g2 := E.2.1
    let res := E.2.2
    if res.fighter1_health_post_hit ≤ 0 then (g1, g2, Outcome.f1Destroyed, 1)
    else if res.fighter2_health_post_hit ≤ 0 then (g1, g2, Outcome.f2Destroyed, 1)
    else if res.fighter1_ammo_left = 0 then (g1, g2, Outcome.f1NoAmmo, 1)
    else if res.fighter2_ammo_left = 0 then (g1, g2, Outcome.f2NoAmmo, 1)
    else
      let tail := dogfightRun tan draws rest (k + 1) g1 g2
      (tail.1, tail.2.1, tail.2.2.1, tail.2.2.2 + 1)

/-- Python's `range(start, stop, step)` for a negative `step`, as used by
the simulation loops (`range(start_distance, 0, step_size)`). -/
def range_down (start stop step : ℤ) : List ℤ :=
  (List.range ((start - stop + (-step) - 1) / (-step)).toNat).map
    (fun i => start + step * (i : ℤ))

/-- `dogfight` (`src/src/scripts/utils.py` line 192): drive `dogfightRun`
over `range(start_distance, 0, step_size)` starting at round 0. -/
def dogfight (tan : ℚ → ℚ) (draws : ℕ → ℚ × ℚ × ℚ) (fighter1 fighter2 : JetFighter)
    (start_distance step_size : ℤ) : JetFighter × JetFighter × Outcome × ℕ :=
  dogfightRun tan draws (range_down start_distance 0 step_size) 0 fighter1 fighter2

/-- A concrete tangent function for closed instances: identically zero,
which forces both spread areas to 0 and hence both probabilities to 1
(the spec's "forced probability 1.0" scenario). -/
def tan_zero : ℚ → ℚ := fun _ => 0

/-- A concrete tangent function for closed instances: identically
`7/100` (roughly the tangent of 4°). -/
def tan_const : ℚ → ℚ := fun _ => 7 / 100

/-- Concrete random draws for closed instances: every round has duration
10 and both uniform hit draws 0 (the spec's "forced random draw 0.0"). -/
def draws_const : ℕ → ℚ × ℚ × ℚ := fun _ => (10, 0, 0)

/-- The `F16` with every non-geometric field changed (witness material
for C10). -/
def F16_dynamic_variant : JetFighter :=
  { F16 with
    name := "X"
    health := 1
    cannon_ammo := 7
    fire_rate := 9
    damage_per_round := 1 / 2 }

/-- The `F18` with every non-geometric field changed (witness material
for C10). -/
def F18_dynamic_variant : JetFighter :=
  { F18 with
    name := "Y"
    health := 3
    cannon_ammo := 1
    fire_rate := 2
    damage_per_round := 1 }

/-! ## Helper lemmas -/

/-- The cross-sectional area `(wingspan / 2) ^ 2 * 3.141` is never
negative (an even power times a positive constant). -/
theorem cross_sectional_area_nonneg (j : JetFighter) :
    0 ≤ j.calculate_cross_sectional_area := by
  unfold JetFighter.calculate_cross_sectional_area
  positivity

/-- The guarded ratio `if a ≤ c then 1 else c / a` lies in `[0, 1]`
whenever `c` is non-negative. -/
theorem guarded_ratio_bounds (a c : ℚ) (hc : 0 ≤ c) :
    0 ≤ (if a ≤ c then (1 : ℚ) else c / a) ∧
      (if a ≤ c then (1 : ℚ) else c / a) ≤ 1 := by
  split_ifs with h
  · exact ⟨zero_le_one, le_refl 1⟩
  · push_neg at h
    have ha : 0 < a := lt_of_le_of_lt hc h
    exact ⟨div_nonneg hc ha.le, le_of_lt ((div_lt_one ha).mpr h)⟩

/-! ## Claim theorems -/

/-- C1: for every pair of fighters and every distance, `p_by_distance`
returns, independently for each side, exactly the spec's formula:
probability 1.0 when the firer's spread area
(`(tan(cannonSpreadRadians) * d) ^ 2` times the circle constant) is `≤`
the target's cross-sectional area, else the ratio of target area to
spread area. -/
theorem p_by_distance_matches_spec_formula (tan : ℚ → ℚ)
    (fighter1 fighter2 : JetFighter) (d : ℚ) :
    p_by_distance tan fighter1 fighter2 d =
      (specHitProbability tan fighter1 fighter2 d,
       specHitProbability tan fighter2 fighter1 d) := by
  rfl

/-- C2: at distance exactly 0 the spread areas are 0, the guaranteed-hit
branch is taken on both sides (so the else-branch division is never
evaluated), and both probabilities are exactly 1. -/
theorem p_by_distance_zero_distance (tan : ℚ → ℚ)
    (fighter1 fighter2 : JetFighter)
    (h1 : 0 < fighter1.wingspan) (h2 : 0 < fighter2.wingspan) :
    p_by_distance tan fighter1 fighter2 0 = (1, 1) := by
  have c1 := cross_sectional_area_nonneg fighter1
  have c2 := cross_sectional_area_nonneg fighter2
  simp [p_by_distance, calculate_cannon_spread_area, c1, c2]

/-- Witness for C2: the spec's scenario fighter (`wingspan = 45`,
`cannonSpreadRadians = radians 4`, `fireRate = 80`, i.e. the `F16` of
`src/src/jets.py`) against itself at distance 0 reports probability
exactly 1.0 for both sides. -/
theorem p_by_distance_zero_distance_witness :
    0 < F16_src.wingspan ∧
      p_by_distance tan_const F16_src F16_src 0 = (1, 1) :=
  ⟨by norm_num [F16_src],
   p_by_distance_zero_distance tan_const F16_src F16_src
     (by norm_num [F16_src]) (by norm_num [F16_src])⟩

/-- C3: for every distance `d ≥ 0` and fighters with positive wingspans
and non-negative tangent of the spread angle, both probabilities returned
by `p_by_distance` lie in `[0, 1]`. -/
theorem p_by_distance_mem_unit_interval (tan : ℚ → ℚ)
    (fighter1 fighter2 : JetFighter) (d : ℚ)
    (hd : 0 ≤ d) (hw1 : 0 < fighter1.wingspan) (hw2 : 0 < fighter2.wingspan)
    (ht1 : 0 ≤ tan fighter1.cannon_spread_rads)
    (ht2 : 0 ≤ tan fighter2.cannon_spread_rads) :
    0 ≤ (p_by_distance tan fighter1 fighter2 d).1 ∧
      (p_by_distance tan fighter1 fighter2 d).1 ≤ 1 ∧
      0 ≤ (p_by_distance tan fighter1 fighter2 d).2 ∧
      (p_by_distance tan fighter1 fighter2 d).2 ≤ 1 := by
  have e1 : (p_by_distance tan fighter1 fighter2 d).1 =
      if calculate_cannon_spread_area tan d fighter1 ≤
          fighter2.calculate_cross_sectional_area then (1 : ℚ)
      else fighter2.calculate_cross_sectional_area /
          calculate_cannon_spread_area tan d fighter1 := rfl
  have e2 : (p_by_distance tan fighter1 fighter2 d).2 =
      if calculate_cannon_spread_area tan d fighter2 ≤
          fighter1.calculate_cross_sectional_area then (1 : ℚ)
      else fighter1.calculate_cross_sectional_area /
          calculate_cannon_spread_area tan d fighter2 := rfl
  rw [e1, e2]
  have b1 := guarded_ratio_bounds (calculate_cannon_spread_area tan d fighter1)
    fighter2.calculate_cross_sectional_area (cross_sectional_area_nonneg fighter2)
  have b2 := guarded_ratio_bounds (calculate_cannon_spread_area tan d fighter2)
    fighter1.calculate_cross_sectional_area (cross_sectional_area_nonneg fighter1)
  exact ⟨b1.1, b1.2, b2.1, b2.2⟩

/-- Witness for C3: the scripts' `F16` against the scripts' `F18` at
distance 100, with a concrete non-negative tangent function. -/
theorem p_by_distance_mem_unit_interval_witness :
    ((0 : ℚ) ≤ 100 ∧ 0 < F16.wingspan ∧ 0 < F18.wingspan ∧
      0 ≤ tan_const F16.cannon_spread_rads ∧
      0 ≤ tan_const F18.cannon_spread_rads) ∧
    (0 ≤ (p_by_distance tan_const F16 F18 100).1 ∧
      (p_by_distance tan_const F16 F18 100).1 ≤ 1 ∧
      0 ≤ (p_by_distance tan_const F16 F18 100).2 ∧
      (p_by_distance tan_const F16 F18 100).2 ≤ 1) :=
  ⟨by norm_num [F16, F18, tan_const],
   p_by_distance_mem_unit_interval tan_const F16 F18 100
     (by norm_num) (by norm_num [F16]) (by norm_num [F18])
     (by norm_num [tan_const]) (by norm_num [tan_const])⟩

/-- C4: in a single exchange a fighter's health changes only when the
opponent was flagged as a hit in that round: on a miss the target's
health is unchanged and the inflicted damage is reported as 0; on a hit
the attacker's damage output `duration * fire_rate * damage_per_round`
is applied (through the clamping `deduct_health`) to the target's
health. -/
theorem exchange_health_hit_gated (tan : ℚ → ℚ) (fighter1 fighter2 : JetFighter)
    (distance duration r1 r2 : ℚ) :
    (exchange tan fighter1 fighter2 distance duration r1 r2).2.1.health =
      (if (hit_or_miss (p_by_distance tan fighter1 fighter2 distance).1
            (p_by_distance tan fighter1 fighter2 distance).2 r1 r2).1 then
        (fighter2.deduct_health
          (duration * fighter1.fire_rate * fighter1.damage_per_round)).2
      else fighter2.health) ∧
    (exchange tan fighter1 fighter2 distance duration r1 r2).2.2.fighter2_damage_received =
      (if (hit_or_miss (p_by_distance tan fighter1 fighter2 distance).1
            (p_by_distance tan fighter1 fighter2 distance).2 r1 r2).1 then
        duration * fighter1.fire_rate * fighter1.damage_per_round
      else 0) ∧
    (exchange tan fighter1 fighter2 distance duration r1 r2).1.health =
      (if (hit_or_miss (p_by_distance tan fighter1 fighter2 distance).1
            (p_by_distance tan fighter1 fighter2 distance).2 r1 r2).2 then
        (fighter1.deduct_health
          (duration * fighter2.fire_rate * fighter2.damage_per_round)).2
      else fighter1.health) ∧
    (exchange tan fighter1 fighter2 distance duration r1 r2).2.2.fighter1_damage_received =
      (if (hit_or_miss (p_by_distance tan fighter1 fighter2 distance).1
            (p_by_distance tan fighter1 fighter2 distance).2 r1 r2).2 then
        duration * fighter2.fire_rate * fighter2.damage_per_round
      else 0) := by
  by_cases h1 : (hit_or_miss (p_by_distance tan fighter1 fighter2 distance).1
      (p_by_distance tan fighter1 fighter2 distance).2 r1 r2).1 <;>
    by_cases h2 : (hit_or_miss (p_by_distance tan fighter1 fighter2 distance).1
        (p_by_distance tan fighter1 fighter2 distance).2 r1 r2).2 <;>
      simp [exchange, h1, h2, JetFighter.shoot, JetFighter.deduct_health,
        JetFighter.calculate_damage]

/-- C5: every single exchange deducts ammunition from both fighters
exactly once — each final ammunition count, and each reported
`ammo_left`, equals the result of a single `shoot duration` on that
fighter's initial state, whatever the two random draws (and hence the
hit outcomes) were. -/
theorem exchange_ammo_deducted_once (tan : ℚ → ℚ) (fighter1 fighter2 : JetFighter)
    (distance duration r1 r2 : ℚ) :
    (exchange tan fighter1 fighter2 distance duration r1 r2).1.cannon_ammo =
      (fighter1.shoot duration).1.cannon_ammo ∧
    (exchange tan fighter1 fighter2 distance duration r1 r2).2.1.cannon_ammo =
      (fighter2.shoot duration).1.cannon_ammo ∧
    (exchange tan fighter1 fighter2 distance duration r1 r2).2.2.fighter1_ammo_left =
      (fighter1.shoot duration).2 ∧
    (exchange tan fighter1 fighter2 distance duration r1 r2).2.2.fighter2_ammo_left =
      (fighter2.shoot duration).2 := by
  by_cases h1 : (hit_or_miss (p_by_distance tan fighter1 fighter2 distance).1
      (p_by_distance tan fighter1 fighter2 distance).2 r1 r2).1 <;>
    by_cases h2 : (hit_or_miss (p_by_distance tan fighter1 fighter2 distance).1
        (p_by_distance tan fighter1 fighter2 distance).2 r1 r2).2 <;>
      simp [exchange, h1, h2, JetFighter.shoot, JetFighter.deduct_health]

/-- C9: the record returned by `exchange` agrees with the fighters'
final states: the reported ammunition and health entries for each side
equal that fighter's `cannon_ammo` and `health` fields after the
exchange completes. -/
theorem exchange_record_matches_state (tan : ℚ → ℚ) (fighter1 fighter2 : JetFighter)
    (distance duration r1 r2 : ℚ) :
    (exchange tan fighter1 fighter2 distance duration r1 r2).2.2.fighter1_ammo_left =
      (exchange tan fighter1 fighter2 distance duration r1 r2).1.cannon_ammo ∧
    (exchange tan fighter1 fighter2 distance duration r1 r2).2.2.fighter1_health_post_hit =
      (exchange tan fighter1 fighter2 distance duration r1 r2).1.health ∧
    (exchange tan fighter1 fighter2 distance duration r1 r2).2.2.fighter2_ammo_left =
      (exchange tan fighter1 fighter2 distance duration r1 r2).2.1.cannon_ammo ∧
    (exchange tan fighter1 fighter2 distance duration r1 r2).2.2.fighter2_health_post_hit =
      (exchange tan fighter1 fighter2 distance duration r1 r2).2.1.health := by
  by_cases h1 : (hit_or_miss (p_by_distance tan fighter1 fighter2 distance).1
      (p_by_distance tan fighter1 fighter2 distance).2 r1 r2).1 <;>
    by_cases h2 : (hit_or_miss (p_by_distance tan fighter1 fighter2 distance).1
        (p_by_distance tan fighter1 fighter2 distance).2 r1 r2).2 <;>
      simp [exchange, h1, h2, JetFighter.shoot, JetFighter.deduct_health]

/-- C6: the `shoot` of `src/src/jets.py` (the unclamped variant) drives
`cannon_ammo` below 0: the `F16` of that file (ammo 100000000, fire rate
80) fired for 2000000 seconds ends with ammunition -60000000 < 0, while
the clamped `shoot` of `src/src/scripts/jets.py` on the same state stops
at exactly 0, as the claim demands. -/
theorem shoot_unclamped_goes_negative :
    (F16_src.shoot_unclamped 2000000).1.cannon_ammo = -60000000 ∧
    (F16_src.shoot_unclamped 2000000).1.cannon_ammo < 0 ∧
    (F16_src.shoot 2000000).1.cannon_ammo = 0 := by
  refine ⟨?_, ?_, ?_⟩ <;>
    norm_num [JetFighter.shoot_unclamped, JetFighter.shoot, F16_src]

/-- C7 counterexample: the cross-sectional area is not exactly
`π × (wingspan / 2)²` — the source multiplies by the literal `3.141`,
which is strictly less than `π`, so on the `F16` (wingspan 45) the two
values differ. -/
theorem cross_sectional_area_differs_from_pi_formula :
    ((F16.calculate_cross_sectional_area : ℚ) : ℝ) ≠ Real.pi * (45 / 2) ^ 2 := by
  have h1 : ((F16.calculate_cross_sectional_area : ℚ) : ℝ) = 254421 / 160 := by
    have h0 : F16.calculate_cross_sectional_area = 254421 / 160 := by
      norm_num [F16, JetFighter.calculate_cross_sectional_area]
    rw [h0]
    norm_num
  rw [h1]
  exact ne_of_lt (by nlinarith [Real.pi_gt_d4])

/-- C7 amended: `calculate_cross_sectional_area` returns exactly
`(wingspan / 2) ^ 2 * 3.141` (the code's literal circle constant, not
`π`), and it is a pure function of the static wingspan parameter: two
fighters with equal wingspans get equal areas. -/
theorem cross_sectional_area_formula (j k : JetFighter) (h : j.wingspan = k.wingspan) :
    j.calculate_cross_sectional_area = (j.wingspan / 2) ^ 2 * (3141 / 1000) ∧
    j.calculate_cross_sectional_area = k.calculate_cross_sectional_area := by
  constructor
  · rfl
  · unfold JetFighter.calculate_cross_sectional_area
    rw [h]

/-- Witness for the amended C7: the `F16` against a copy of itself with
different health. -/
theorem cross_sectional_area_formula_witness :
    F16.wingspan = ({ F16 with health := 50 } : JetFighter).wingspan ∧
      (F16.calculate_cross_sectional_area = (F16.wingspan / 2) ^ 2 * (3141 / 1000) ∧
       F16.calculate_cross_sectional_area =
         ({ F16 with health := 50 } : JetFighter).calculate_cross_sectional_area) :=
  ⟨rfl, cross_sectional_area_formula F16 { F16 with health := 50 } rfl⟩

/-- C10: the probabilities returned by `p_by_distance` depend only on
the distance and the two fighters' static geometry (`cannon_spread_rads`
and `wingspan`): fighters differing only in `health`, `cannon_ammo`,
`fire_rate`, `damage_per_round` or `name` yield equal probabilities.
(`p_by_distance` is a pure function of its arguments here — by its type
it returns only the pair and leaves both fighters untouched.) -/
theorem p_by_distance_depends_only_on_statics (tan : ℚ → ℚ) (d : ℚ)
    (f1 f2 g1 g2 : JetFighter)
    (h1s : f1.cannon_spread_rads = g1.cannon_spread_rads)
    (h1w : f1.wingspan = g1.wingspan)
    (h2s : f2.cannon_spread_rads = g2.cannon_spread_rads)
    (h2w : f2.wingspan = g2.wingspan) :
    p_by_distance tan f1 f2 d = p_by_distance tan g1 g2 d := by
  simp [p_by_distance, calculate_cannon_spread_area,
    JetFighter.calculate_cross_sectional_area, h1s, h1w, h2s, h2w]

/-- Witness for C10: the `F16` and `F18` against copies of themselves
with different health, ammunition, fire rate, damage per round and name,
at distance 250. -/
theorem p_by_distance_depends_only_on_statics_witness :
    (F16.cannon_spread_rads = F16_dynamic_variant.cannon_spread_rads ∧
      F16.wingspan = F16_dynamic_variant.wingspan ∧
      F18.cannon_spread_rads = F18_dynamic_variant.cannon_spread_rads ∧
      F18.wingspan = F18_dynamic_variant.wingspan) ∧
    p_by_distance tan_const F16 F18 250 =
      p_by_distance tan_const F16_dynamic_variant F18_dynamic_variant 250 :=
  ⟨⟨rfl, rfl, rfl, rfl⟩,
   p_by_distance_depends_only_on_statics tan_const 250 F16 F18
     F16_dynamic_variant F18_dynamic_variant rfl rfl rfl rfl⟩

/-- C8: in the simulation loop, termination is decided right after each
exchange by the four checks in source order (fighter1 health `≤ 0`,
fighter2 health `≤ 0`, fighter1 ammo `== 0`, fighter2 ammo `== 0`,
first match breaking the loop): whenever any of them holds after the
exchange of the current round, the run ends at that round with exactly
that one exchange performed — the final fighter states are the
post-exchange states and no further exchange occurs. -/
theorem dogfight_stops_at_first_terminal (tan : ℚ → ℚ) (draws : ℕ → ℚ × ℚ × ℚ)
    (d : ℤ) (ds : List ℤ) (k : ℕ) (fighter1 fighter2 : JetFighter) (o : Outcome)
    (h : terminal_check
        (exchange tan fighter1 fighter2 (d : ℚ)
          (draws k).1 (draws k).2.1 (draws k).2.2).2.2 = some o) :
    dogfightRun tan draws (d :: ds) k fighter1 fighter2 =
      ((exchange tan fighter1 fighter2 (d : ℚ)
          (draws k).1 (draws k).2.1 (draws k).2.2).1,
       (exchange tan fighter1 fighter2 (d : ℚ)
          (draws k).1 (draws k).2.1 (draws k).2.2).2.1,
       o, 1) := by
  unfold terminal_check at h
  simp only [dogfightRun]
  split_ifs at h ⊢ with h1 h2 h3 h4 <;> simp_all

/-- Witness for C8: the spec's loop scenario — distances 100 down by 25,
probability forced to 1.0 on both sides (zero tangent makes both spread
areas 0) and both hit draws 0.0, duration 10 every round.  The very first
exchange drives the `F16`'s health to 0 (it takes 150 damage from the
`F18`), the first terminal check fires, and the run ends after exactly
one exchange. -/
theorem dogfight_stops_at_first_terminal_witness :
    terminal_check
        (exchange tan_zero F16 F18 ((100 : ℤ) : ℚ)
          (draws_const 0).1 (draws_const 0).2.1 (draws_const 0).2.2).2.2 =
      some Outcome.f1Destroyed ∧
    dogfightRun tan_zero draws_const [100, 75, 50, 25] 0 F16 F18 =
      ((exchange tan_zero F16 F18 ((100 : ℤ) : ℚ)
          (draws_const 0).1 (draws_const 0).2.1 (draws_const 0).2.2).1,
       (exchange tan_zero F16 F18 ((100 : ℤ) : ℚ)
          (draws_const 0).1 (draws_const 0).2.1 (draws_const 0).2.2).2.1,
       Outcome.f1Destroyed, 1) :=
  ⟨by
    norm_num [terminal_check, exchange, p_by_distance, hit_or_miss,
      calculate_cannon_spread_area, JetFighter.calculate_cross_sectional_area,
      JetFighter.shoot, JetFighter.deduct_health, JetFighter.calculate_damage,
      F16, F18, tan_zero, draws_const],
   dogfight_stops_at_first_terminal tan_zero draws_const 100 [75, 50, 25] 0
     F16 F18 Outcome.f1Destroyed (by
      norm_num [terminal_check, exchange, p_by_distance, hit_or_miss,
        calculate_cannon_spread_area, JetFighter.calculate_cross_sectional_area,
        JetFighter.shoot, JetFighter.deduct_health, JetFighter.calculate_damage,
        F16, F18, tan_zero, draws_const])⟩
